import Mathlib

/-
Verification development for the code-intelligence pipeline of the
Code-IDE repository (src/main_code.py).

The Python source is shallowly embedded: pure string-building code becomes
Lean functions on String / List Char; the Python evaluator (ast.parse,
compile, exec) and the generative-model service are external collaborators
and are passed in as explicit function parameters, so every theorem
quantifies over their behaviour.  Python dicts (execution namespaces) are
modelled as insertion-ordered association lists.
-/

/- ===================== Data model: Python AST fragment ===================== -/

/-- Model of ast.arguments.  `args` are the positional-or-keyword parameter
names (this is the list whose length the source code takes); `posonlyargs`,
`vararg`, `kwonlyargs` and `kwarg` model the other parameter kinds;
`defaults` is the number of default values attached to the trailing
positional parameters (the length of ast.arguments.defaults). -/
structure PyArguments where
  posonlyargs : List String
  args : List String
  vararg : Option String
  kwonlyargs : List String
  kwarg : Option String
  defaults : Nat
deriving DecidableEq

/-- Model of the top-level statements of a Python module that matter to the
pipeline: plain function definitions (ast.FunctionDef), async function
definitions (ast.AsyncFunctionDef), class definitions with their own body
(ast.ClassDef), assignments (ast.Assign, e.g. a lambda bound to a name),
and anything else. -/
inductive PyStmt where
  | functionDef (name : String) (args : PyArguments)
  | asyncFunctionDef (name : String) (args : PyArguments)
  | classDef (name : String) (body : List PyStmt)
  | assign
  | other

/-- Model of ast.Module: the list of top-level statements, in source order. -/
structure PyModule where
  body : List PyStmt

/-- Result of handing a source text to the Python parser (ast.parse or
compile): either the parsed module or the SyntaxError's str() message. -/
inductive ParseResult where
  | ok (tree : PyModule)
  | syntaxError (msg : String)

/-- True exactly on ast.FunctionDef nodes (the isinstance test of the
source's loop). -/
def is_function_def : PyStmt → Bool
  | .functionDef _ _ => true
  | _ => false

/-- Signature extracted from one top-level statement: the source records
`node.name` and `len(node.args.args)` for ast.FunctionDef nodes and skips
every other statement kind. -/
def sig_of_stmt : PyStmt → Option (String × Nat)
  | .functionDef name a => some (name, a.args.length)
  | _ => none

/-- Ordered callable signatures extracted from a module, one per top-level
plain function definition. -/
def extract_signatures (m : PyModule) : List (String × Nat) :=
  m.body.filterMap sig_of_stmt

/- ===================== Test Synthesizer ===================== -/

/-- Text of the single test case generated for a callable: mirrors the body
of the loop in generate_unit_tests_for_code (src/main_code.py lines 60-71). -/
def gen_test_case (func_name : String) (num_args : Nat) : String :=
  let test_func_name := "test_" ++ func_name
  let args := if num_args > 0 then String.intercalate ", " (List.replicate num_args "1") else ""
  "class Test_" ++ func_name ++ "(unittest.TestCase):\n" ++
  "    def " ++ test_func_name ++ "(self):\n" ++
  "        try:\n" ++
  "            result = " ++ func_name ++ "(" ++ args ++ ")\n" ++
  "            self.assertIsNotNone(result)\n" ++
  "        except Exception as e:\n" ++
  "            self.fail(f\x27Function " ++ func_name ++ " raised an exception: \x7be\x7d\x27)\n\n"

/-- One step of the source's `for node in tree.body` loop: the accumulator is
the (tests, found_function) pair. -/
def gen_loop (acc : String × Bool) (node : PyStmt) : String × Bool :=
  match node with
  | .functionDef name a => (acc.1 ++ gen_test_case name a.args.length, true)
  | _ => acc

/-- The `if __name__ == '__main__': unittest.main()` footer appended last. -/
def main_footer : String :=
  "if __name__ == \x27__main__\x27:\n" ++ "    unittest.main()\n"

/-- Embedding of generate_unit_tests_for_code (src/main_code.py lines 46-78).
`parse` stands for ast.parse: on SyntaxError the commented message is
returned; otherwise the loop over tree.body appends one test case per
ast.FunctionDef, the explanatory comment is added when none was found, and
the unittest.main footer closes the module. -/
def generate_unit_tests_for_code (parse : String → ParseResult) (code : String) : String :=
  match parse code with
  | .syntaxError e => "# Could not generate tests due to syntax error: " ++ e
  | .ok tree =>
    let r := tree.body.foldl gen_loop ("import unittest\n\n", false)
    let tests := if r.2 then r.1
      else r.1 ++ "# No function definitions found in the provided code to test.\n"
    tests ++ main_footer

/- ===================== Structural Analyzer ===================== -/

/-- Embedding of analyze_code (src/main_code.py lines 80-88).  `compile_src`
stands for compile(code, ..., 'exec'): success yields the fixed success
message, a SyntaxError yields its message prefixed with "Syntax Error: ". -/
def analyze_code (compile_src : String → ParseResult) (code : String) : String :=
  match compile_src code with
  | .ok _ => "No syntax errors detected."
  | .syntaxError e => "Syntax Error: " ++ e

/- ===================== Helper lemmas for the synthesizer ===================== -/

/-- Concatenation of the generated test cases for a signature list. -/
def tests_body : List (String × Nat) → String
  | [] => ""
  | s :: rest => gen_test_case s.1 s.2 ++ tests_body rest

lemma str_append_empty (s : String) : s ++ "" = s := by
  cases s with
  | mk data => show String.mk (data ++ []) = String.mk data
               rw [List.append_nil]

lemma str_append_assoc (a b c : String) : a ++ b ++ c = a ++ (b ++ c) := by
  cases a with
  | mk da => cases b with
    | mk db => cases c with
      | mk dc => show String.mk (da ++ db ++ dc) = String.mk (da ++ (db ++ dc))
                 rw [List.append_assoc]

/-- The source's fold appends exactly one generated test case per extracted
signature, in order, and its flag records whether any function was seen. -/
lemma foldl_gen_loop (body : List PyStmt) (acc : String) (f : Bool) :
    body.foldl gen_loop (acc, f) =
      (acc ++ tests_body (body.filterMap sig_of_stmt), f || body.any is_function_def) := by
  induction body generalizing acc f with
  | nil => simp [tests_body, str_append_empty]
  | cons s rest ih =>
    cases s with
    | functionDef name a =>
      simp only [List.foldl_cons, gen_loop, List.filterMap_cons, sig_of_stmt, List.any_cons,
        is_function_def, Bool.true_or, Bool.or_true, tests_body, ih]
      rw [str_append_assoc]
    | asyncFunctionDef name a =>
      simp [List.foldl_cons, gen_loop, List.filterMap_cons, sig_of_stmt, List.any_cons,
        is_function_def, tests_body, ih]
    | classDef name b =>
      simp [List.foldl_cons, gen_loop, List.filterMap_cons, sig_of_stmt, List.any_cons,
        is_function_def, tests_body, ih]
    | assign =>
      simp [List.foldl_cons, gen_loop, List.filterMap_cons, sig_of_stmt, List.any_cons,
        is_function_def, tests_body, ih]
    | other =>
      simp [List.foldl_cons, gen_loop, List.filterMap_cons, sig_of_stmt, List.any_cons,
        is_function_def, tests_body, ih]

lemma length_extract_eq_countP (body : List PyStmt) :
    (body.filterMap sig_of_stmt).length = body.countP is_function_def := by
  induction body with
  | nil => rfl
  | cons s rest ih =>
    cases s <;> simp [List.filterMap_cons, sig_of_stmt, List.countP_cons, is_function_def, ih]

/- ===================== Execution Sandbox model ===================== -/

/-- A runtime fault caught by an `except Exception as e` clause: `msg` is
str(e); `tracebackBody` is the text that traceback.format_exc() appends
after its fixed "Traceback (most recent call last):" header line. -/
structure PyError where
  msg : String
  tracebackBody : String

/-- The text produced by traceback.format_exc() at the except site. -/
def format_exc (e : PyError) : String :=
  "Traceback (most recent call last):\n" ++ e.tracebackBody

/-- A value bound in an execution namespace, as far as the pipeline
inspects it: either a class (with the verdict of
isinstance(obj, type) and issubclass(obj, unittest.TestCase)) or anything
else. -/
inductive PyValue where
  | classVal (name : String) (isTestCaseSubclass : Bool)
  | nonClass
deriving DecidableEq

/-- An execution namespace: a Python dict modelled as an insertion-ordered
association list, so .values() is the ordered list of second components. -/
abbrev Env := List (String × PyValue)

/-- The isinstance(obj, type) and issubclass(obj, unittest.TestCase) test of
run_ci's discovery loop. -/
def is_test_case : PyValue → Bool
  | .classVal _ sub => sub
  | .nonClass => false

/- ===================== Diagnosis Requester ===================== -/

/-- Python-string model for the diagnosis post-processing: a str is its
list of characters. -/
abbrev PyStr := List Char

/-- The separator literal "fix" that suggest_bug_fix searches for. -/
def fixKw : PyStr := "fix".data

/-- ASCII whitespace stripped by str.strip() (Python also strips some
non-ASCII Unicode whitespace, indistinguishable for the inputs modelled
here). -/
def py_isspace (c : Char) : Bool :=
  c = ' ' || c = '\t' || c = '\n' || c = '\r' || c = '\x0b' || c = '\x0c'

/-- Model of str.strip(): drop whitespace from both ends. -/
def py_strip (s : PyStr) : PyStr :=
  ((s.dropWhile py_isspace).reverse.dropWhile py_isspace).reverse

/-- Model of the Python substring test `sep in s` (for non-empty sep: some
occurrence of sep starts at some position of s). -/
def py_contains (sep : PyStr) : PyStr → Bool
  | [] => sep.isPrefixOf []
  | c :: rest => sep.isPrefixOf (c :: rest) || py_contains sep rest

/-- Model of str.lower() (Char.toLower agrees with Python on ASCII, the
relevant alphabet for the keyword "fix"). -/
def py_lower (s : PyStr) : PyStr := s.map Char.toLower

/-- Model of s.split(sep)[-1] for a non-empty separator that does not
overlap itself (such as "fix"): the suffix of s after the last occurrence
of sep, or all of s when sep does not occur. -/
def py_split_last (sep : PyStr) : PyStr → PyStr
  | [] => []
  | c :: rest =>
      if py_contains sep rest then py_split_last sep rest
      else if sep.isPrefixOf (c :: rest) then (c :: rest).drop sep.length
      else c :: rest

/-- Prompt built by suggest_bug_fix (src/main_code.py lines 95-100). -/
def build_fix_prompt (error_message code : PyStr) : PyStr :=
  "# The following code produced an error:\n# Code:\n".data ++ code ++
  "\n# Error: ".data ++ error_message ++
  "\n# Provide a concise suggestion to fix the error in the code:\n".data

/-- Embedding of suggest_bug_fix (src/main_code.py lines 90-109).
`service` stands for the generative-model call: it receives the prompt and
returns outputs[0]["generated_text"].  If "fix" occurs in the lower-cased
reply, the reply is truncated to suggestion.split("fix")[-1]; either way
the result is stripped. -/
def suggest_bug_fix (service : PyStr → PyStr) (error_message code : PyStr) : PyStr :=
  let suggestion := service (build_fix_prompt error_message code)
  let suggestion_text :=
    if py_contains fixKw (py_lower suggestion) then py_split_last fixKw suggestion
    else suggestion
  py_strip suggestion_text

/- ===================== Execution Sandbox and CI Aggregator ===================== -/

/-- Embedding of debug_code (src/main_code.py lines 111-127).  `pyExec`
stands for the Python evaluator exec(code, env): it either completes with
the final namespace or is caught raising a PyError; `service` is the
generative-model call used by the inner suggest_bug_fix.  The function is
total: both outcomes are turned into a returned string, never re-raised. -/
def debug_code (pyExec : String → Env → Except PyError Env)
    (service : PyStr → PyStr) (code : String) : String :=
  match pyExec code [] with
  | .ok _ => "Code executed without runtime errors."
  | .error e =>
      "Runtime Error: " ++ e.msg ++ "\n\nTraceback:\n" ++ format_exc e ++
      "\nAI Suggested Fix:\n" ++
      String.mk (suggest_bug_fix service e.msg.data code.data)

/-- The unittest.TestCase subclasses gathered from local_env.values()
(src/main_code.py lines 147-150). -/
def discover_tests (env : Env) : List PyValue :=
  (env.map Prod.snd).filter is_test_case

/-- Outcome of unittest.TextTestRunner(...).run(suite) together with the
stream's captured text: `output` is stream.getvalue(), the three counters
are result.testsRun, len(result.failures), len(result.errors). -/
structure SuiteResult where
  output : String
  testsRun : Nat
  failures : Nat
  errors : Nat

/-- The one-line numeric summary appended to the CI log
(src/main_code.py line 165). -/
def ci_summary (r : SuiteResult) : String :=
  "\nCI Summary: Ran " ++ toString r.testsRun ++ " tests. Failures: " ++
  toString r.failures ++ ". Errors: " ++ toString r.errors ++ "."

/-- Embedding of run_ci (src/main_code.py lines 129-166).  `pyExec` stands
for exec(source, env); `runner` stands for building the suite from the
discovered TestCase classes via TestLoader and running it with
TextTestRunner over a StringIO stream. -/
def run_ci (pyExec : String → Env → Except PyError Env)
    (runner : List PyValue → SuiteResult) (user_code test_code : String) : String :=
  match pyExec user_code [] with
  | .error e => "Error in user code execution: " ++ e.msg
  | .ok env1 =>
    match pyExec test_code env1 with
    | .error e => "Error in test code execution: " ++ e.msg
    | .ok env2 =>
      let test_cases := discover_tests env2
      if test_cases.isEmpty then "No test cases found to run."
      else
        let result := runner test_cases
        result.output ++ ci_summary result

/- ===================== Lemmas about the reply post-processing ===================== -/

lemma py_contains_of_suffix (sep pre t : PyStr) (h : py_contains sep t = true) :
    py_contains sep (pre ++ t) = true := by
  induction pre with
  | nil => simpa using h
  | cons c pre ih =>
    have hstep : py_contains sep (c :: (pre ++ t)) =
        (sep.isPrefixOf (c :: (pre ++ t)) || py_contains sep (pre ++ t)) := rfl
    rw [List.cons_append, hstep, ih, Bool.or_true]

lemma py_split_last_of_not_contains (sep s : PyStr) (h : py_contains sep s = false) :
    py_split_last sep s = s := by
  cases s with
  | nil => rfl
  | cons c rest =>
    rw [py_contains, Bool.or_eq_false_iff] at h
    simp only [py_split_last, h.1, h.2, Bool.false_eq_true, if_false]

lemma isPrefixOf_map_toLower (sep s : PyStr) (h : sep.isPrefixOf s = true) :
    (py_lower sep).isPrefixOf (py_lower s) = true := by
  rw [List.isPrefixOf_iff_prefix] at h ⊢
  exact h.map Char.toLower

lemma py_contains_lower (sep s : PyStr) (h : py_contains sep s = true) :
    py_contains (py_lower sep) (py_lower s) = true := by
  induction s with
  | nil =>
    rw [py_contains] at h
    have hgoal : py_contains (py_lower sep) (py_lower []) =
        (py_lower sep).isPrefixOf (py_lower []) := rfl
    rw [hgoal]
    exact isPrefixOf_map_toLower _ _ h
  | cons c rest ih =>
    rw [py_contains, Bool.or_eq_true] at h
    have hgoal : py_contains (py_lower sep) (py_lower (c :: rest)) =
        ((py_lower sep).isPrefixOf (py_lower (c :: rest)) ||
          py_contains (py_lower sep) (py_lower rest)) := rfl
    rw [hgoal, Bool.or_eq_true]
    rcases h with h | h
    · exact Or.inl (isPrefixOf_map_toLower _ _ h)
    · exact Or.inr (ih h)

lemma py_split_last_spec (sep s : PyStr) (hsep : sep ≠ [])
    (h : py_contains sep s = true) :
    (∃ pre, s = pre ++ sep ++ py_split_last sep s) ∧
      py_contains sep (py_split_last sep s) = false := by
  induction s with
  | nil =>
    rw [py_contains, List.isPrefixOf_iff_prefix] at h
    exact absurd (List.prefix_nil.mp h) hsep
  | cons c rest ih =>
    cases hrest : py_contains sep rest with
    | true =>
      obtain ⟨⟨pre, hpre⟩, hno⟩ := ih hrest
      have hstep : py_split_last sep (c :: rest) = py_split_last sep rest := by
        simp only [py_split_last, hrest, if_true]
      refine ⟨⟨c :: pre, ?_⟩, ?_⟩
      · rw [hstep, List.cons_append, List.cons_append, ← hpre]
      · rw [hstep]; exact hno
    | false =>
      rw [py_contains, hrest, Bool.or_false] at h
      obtain ⟨t, ht⟩ := List.isPrefixOf_iff_prefix.mp h
      have hdrop : (c :: rest).drop sep.length = t := by rw [← ht, List.drop_left]
      have hsplit : py_split_last sep (c :: rest) = t := by
        simp only [py_split_last, hrest, Bool.false_eq_true, if_false, h, if_true, hdrop]
      refine ⟨⟨[], ?_⟩, ?_⟩
      · rw [hsplit, List.nil_append, ht]
      · rw [hsplit]
        cases sep with
        | nil => exact absurd rfl hsep
        | cons a sep' =>
          have hr : rest = sep' ++ t := by
            rw [List.cons_append] at ht
            injection ht with h1 h2
            exact h2.symm
          cases hct : py_contains (a :: sep') t with
          | false => rfl
          | true =>
            have habs := py_contains_of_suffix (a :: sep') sep' t hct
            rw [← hr, hrest] at habs
            exact absurd habs (by simp)

/- ===================== Claim C1 ===================== -/

/-- Claim C1: for every syntactically valid source whose parsed module
contains at least one top-level plain function definition,
generate_unit_tests_for_code emits the unittest import header, then exactly
one test-case declaration per extracted callable signature in declaration
order — each laid out by gen_test_case as class Test_<name> with single
test method test_<name> whose body invokes the callable with exactly
parameterCount copies of the placeholder literal 1 — and then the
unittest.main footer; the number of generated test cases equals the number
of top-level function definitions. -/
theorem generate_unit_tests_one_case_per_callable
    (parse : String → ParseResult) (code : String) (tree : PyModule)
    (hparse : parse code = .ok tree)
    (hfound : tree.body.any is_function_def = true) :
    generate_unit_tests_for_code parse code =
      "import unittest\n\n" ++ tests_body (extract_signatures tree) ++ main_footer ∧
    (extract_signatures tree).length = tree.body.countP is_function_def := by
  constructor
  · simp only [generate_unit_tests_for_code, hparse, foldl_gen_loop, Bool.false_or, hfound,
      if_true, extract_signatures]
  · exact length_extract_eq_countP tree.body

/-- Module for the scenario `def add(a, b): return a + b`. -/
def demoArgs : PyArguments := ⟨[], ["a", "b"], none, [], none, 0⟩

def demoModule : PyModule := ⟨[.functionDef "add" demoArgs]⟩

def demoParse : String → ParseResult := fun _ => .ok demoModule

def demoCode : String := "def add(a, b):\n    return a + b"

theorem generate_unit_tests_one_case_per_callable_witness :
    generate_unit_tests_for_code demoParse demoCode =
      "import unittest\n\n" ++ tests_body (extract_signatures demoModule) ++ main_footer ∧
    (extract_signatures demoModule).length = demoModule.body.countP is_function_def :=
  generate_unit_tests_one_case_per_callable demoParse demoCode demoModule rfl (by decide)

/- ===================== Claim C2 ===================== -/

/-- Positional-parameter count as the spec's sentence describes it
(parameters with defaults, variadic, and keyword-only parameters excluded:
only plain positional parameters are counted); stated here only to be
compared with the count the source actually computes. -/
def spec_positional_count (a : PyArguments) : Nat :=
  a.posonlyargs.length + a.args.length - a.defaults

def spec_sig_of_stmt : PyStmt → Option (String × Nat)
  | .functionDef name a => some (name, spec_positional_count a)
  | _ => none

/-- Signature extraction as the spec's sentence describes it. -/
def spec_extract_signatures (m : PyModule) : List (String × Nat) :=
  m.body.filterMap spec_sig_of_stmt

/-- Module for `def f(a, b=2): ...` — two positional-or-keyword parameters,
the second carrying a default. -/
def defaultedArgs : PyArguments := ⟨[], ["a", "b"], none, [], none, 1⟩

def defaultedModule : PyModule := ⟨[.functionDef "f" defaultedArgs]⟩

/-- Claim C2 counterexample: for `def f(a, b=2)` the source records the
count len(node.args.args) = 2, while the claimed count (defaults excluded)
is 1, so the extraction does not refine the spec sentence. -/
theorem signature_count_excludes_defaults_cex :
    extract_signatures defaultedModule = [("f", 2)] ∧
    spec_extract_signatures defaultedModule = [("f", 1)] ∧
    extract_signatures defaultedModule ≠ spec_extract_signatures defaultedModule := by
  refine ⟨rfl, rfl, ?_⟩
  decide

/-- Claim C2 amended: the extracted positional-parameter count is
len(node.args.args), the number of positional-or-keyword parameters
including those carrying defaults; positional-only, variadic (*args),
keyword-only, and **kwargs parameters are excluded from the count. -/
theorem signature_count_is_args_length
    (name : String) (po args : List String) (v : Option String)
    (k : List String) (kw : Option String) (d : Nat) :
    sig_of_stmt (.functionDef name ⟨po, args, v, k, kw, d⟩) = some (name, args.length) := rfl

/- ===================== Claim C5 ===================== -/

/-- Claim C5: on a source rejected by the parser, analyze_code returns the
"Syntax Error: " string carrying the parser's message and
generate_unit_tests_for_code returns the commented fault text containing
the original message instead of a test module; both embeddings are total
functions, so no fault is ever raised — every fault is returned as a value.
`parse` models ast.parse (used by the synthesizer) and `compile_src` models
compile (used by the analyzer); their SyntaxError messages may differ in
the reported file name. -/
theorem invalid_source_faults_as_values
    (parse compile_src : String → ParseResult) (code : String) (m1 m2 : String)
    (hparse : parse code = .syntaxError m1)
    (hcompile : compile_src code = .syntaxError m2) :
    analyze_code compile_src code = "Syntax Error: " ++ m2 ∧
    generate_unit_tests_for_code parse code =
      "# Could not generate tests due to syntax error: " ++ m1 := by
  constructor
  · simp only [analyze_code, hcompile]
  · simp only [generate_unit_tests_for_code, hparse]

def badParse : String → ParseResult := fun _ => .syntaxError "invalid syntax (<unknown>, line 1)"

def badCompile : String → ParseResult := fun _ => .syntaxError "invalid syntax (<string>, line 1)"

theorem invalid_source_faults_as_values_witness :
    analyze_code badCompile "def broken(:" =
      "Syntax Error: " ++ "invalid syntax (<string>, line 1)" ∧
    generate_unit_tests_for_code badParse "def broken(:" =
      "# Could not generate tests due to syntax error: " ++ "invalid syntax (<unknown>, line 1)" :=
  invalid_source_faults_as_values badParse badCompile "def broken(:" _ _ rfl rfl

/- ===================== Claim C8 ===================== -/

/-- Claim C8: analyze_code and generate_unit_tests_for_code are
deterministic pure functions — the embedding needs no state parameter
beyond the source text and the (fixed) parser, so two calls on identical
input yield byte-identical output. -/
theorem analyze_synthesize_deterministic
    (parse compile_src : String → ParseResult) (code : String) :
    analyze_code compile_src code = analyze_code compile_src code ∧
    generate_unit_tests_for_code parse code = generate_unit_tests_for_code parse code :=
  ⟨rfl, rfl⟩

/- ===================== Claim C9 ===================== -/

/-- Claim C9: signature extraction selects only plain synchronous top-level
function definitions — async function definitions, assignments (e.g. a
lambda bound to a name), and class definitions (whatever methods their
bodies contain) contribute no signature — and a module containing no plain
function definition yields the explanatory no-op module with zero test
cases. -/
theorem only_plain_functions_selected
    (parse : String → ParseResult) (code : String) (tree : PyModule)
    (hparse : parse code = .ok tree)
    (hnone : tree.body.all (fun s => !is_function_def s) = true) :
    extract_signatures tree = [] ∧
    (∀ n a, sig_of_stmt (.asyncFunctionDef n a) = none) ∧
    (∀ n b, sig_of_stmt (.classDef n b) = none) ∧
    sig_of_stmt .assign = none ∧
    generate_unit_tests_for_code parse code =
      "import unittest\n\n" ++
      "# No function definitions found in the provided code to test.\n" ++ main_footer := by
  have hmem : ∀ s ∈ tree.body, is_function_def s = false := by
    intro s hs
    have := List.all_eq_true.mp hnone s hs
    simpa using this
  have hany : tree.body.any is_function_def = false := by
    rw [List.any_eq_false]
    intro s hs
    simp [hmem s hs]
  have hnil : tree.body.filterMap sig_of_stmt = [] := by
    rw [List.filterMap_eq_nil_iff]
    intro s hs
    cases s with
    | functionDef n a => exact absurd (hmem _ hs) (by simp [is_function_def])
    | asyncFunctionDef n a => rfl
    | classDef n b => rfl
    | assign => rfl
    | other => rfl
  refine ⟨hnil, fun n a => rfl, fun n b => rfl, rfl, ?_⟩
  simp only [generate_unit_tests_for_code, hparse, foldl_gen_loop, Bool.false_or, hany,
    Bool.false_eq_true, if_false, hnil, tests_body, str_append_empty, str_append_assoc]

/-- Module with an async def, a class with a method, and an assignment, but
no top-level plain function definition. -/
def nonPlainModule : PyModule :=
  ⟨[.asyncFunctionDef "fetch" demoArgs,
    .classDef "Helper" [.functionDef "method" demoArgs],
    .assign]⟩

def nonPlainParse : String → ParseResult := fun _ => .ok nonPlainModule

theorem only_plain_functions_selected_witness :
    extract_signatures nonPlainModule = [] ∧
    (∀ n a, sig_of_stmt (.asyncFunctionDef n a) = none) ∧
    (∀ n b, sig_of_stmt (.classDef n b) = none) ∧
    sig_of_stmt .assign = none ∧
    generate_unit_tests_for_code nonPlainParse "async def fetch(a, b): ..." =
      "import unittest\n\n" ++
      "# No function definitions found in the provided code to test.\n" ++ main_footer :=
  only_plain_functions_selected nonPlainParse "async def fetch(a, b): ..."
    nonPlainModule rfl (by decide)

/- ===================== Claim C3 ===================== -/

lemma format_exc_ne_empty (e : PyError) : format_exc e ≠ "" := by
  cases e with
  | mk msg tb =>
    cases tb with
    | mk bodyData =>
      intro h
      have hd : "Traceback (most recent call last):\n".data ++ bodyData = ([] : List Char) :=
        congrArg String.data h
      exact absurd (List.append_eq_nil.mp hd).1 (by decide)

/-- Claim C3: debug_code returns the fixed success string when the executed
source completes without raising, and when execution raises it returns a
string carrying exactly the fault's message together with the
traceback.format_exc text (which is never empty, as it always starts with
the fixed "Traceback" header) and the AI suggestion; both outcomes are
returned values of the total function — the fault is never propagated to
the caller. -/
theorem debug_code_captures_faults
    (pyExec : String → Env → Except PyError Env)
    (service : PyStr → PyStr) (code : String) :
    (∀ env, pyExec code [] = .ok env →
       debug_code pyExec service code = "Code executed without runtime errors.") ∧
    (∀ e, pyExec code [] = .error e →
       debug_code pyExec service code =
         "Runtime Error: " ++ e.msg ++ "\n\nTraceback:\n" ++ format_exc e ++
         "\nAI Suggested Fix:\n" ++
         String.mk (suggest_bug_fix service e.msg.data code.data) ∧
       format_exc e ≠ "") := by
  constructor
  · intro env h
    simp only [debug_code, h]
  · intro e h
    exact ⟨by simp only [debug_code, h], format_exc_ne_empty e⟩

def execOkDemo : String → Env → Except PyError Env := fun _ env => .ok env

def errDemo : PyError := ⟨"division by zero", "ZeroDivisionError: division by zero\n"⟩

def execErrDemo : String → Env → Except PyError Env := fun _ _ => .error errDemo

def serviceDemo : PyStr → PyStr := fun _ => "wrap the call in a try block".data

theorem debug_code_captures_faults_witness :
    debug_code execOkDemo serviceDemo "x = 1" = "Code executed without runtime errors." ∧
    debug_code execErrDemo serviceDemo "1/0" =
      "Runtime Error: " ++ errDemo.msg ++ "\n\nTraceback:\n" ++ format_exc errDemo ++
      "\nAI Suggested Fix:\n" ++
      String.mk (suggest_bug_fix serviceDemo errDemo.msg.data ("1/0" : String).data) ∧
    format_exc errDemo ≠ "" := by
  refine ⟨(debug_code_captures_faults execOkDemo serviceDemo "x = 1").1 [] rfl, ?_, ?_⟩
  · exact ((debug_code_captures_faults execErrDemo serviceDemo "1/0").2 errDemo rfl).1
  · exact ((debug_code_captures_faults execErrDemo serviceDemo "1/0").2 errDemo rfl).2

/- ===================== Claim C4 ===================== -/

/-- Claim C4: run_ci is a hard-stop sequence.  If executing the user source
raises, the result is the user-code error string and is independent of how
the test source would execute and of the runner (so the test source is
never executed); if the user source completes and the test source raises,
the result is the test-code error string and is independent of the runner
(no discovery or suite run occurs); and when the user source completes
into namespace env1, the result depends on the evaluator's behaviour on
the test source only through its action on that same namespace env1. -/
theorem run_ci_hard_stop_sequence
    (pyExec : String → Env → Except PyError Env)
    (runner : List PyValue → SuiteResult) (user_code test_code : String) :
    (∀ e, pyExec user_code [] = .error e →
       run_ci pyExec runner user_code test_code = "Error in user code execution: " ++ e.msg ∧
       (∀ (pyExec' : String → Env → Except PyError Env) (runner' : List PyValue → SuiteResult),
          pyExec' user_code [] = .error e →
          run_ci pyExec' runner' user_code test_code =
            run_ci pyExec runner user_code test_code)) ∧
    (∀ env1 e, pyExec user_code [] = .ok env1 → pyExec test_code env1 = .error e →
       run_ci pyExec runner user_code test_code = "Error in test code execution: " ++ e.msg ∧
       (∀ runner' : List PyValue → SuiteResult,
          run_ci pyExec runner' user_code test_code =
            run_ci pyExec runner user_code test_code)) ∧
    (∀ env1 (pyExec' : String → Env → Except PyError Env),
       pyExec user_code [] = .ok env1 →
       pyExec' user_code [] = .ok env1 →
       pyExec' test_code env1 = pyExec test_code env1 →
       run_ci pyExec' runner user_code test_code = run_ci pyExec runner user_code test_code) := by
  refine ⟨?_, ?_, ?_⟩
  · intro e h
    constructor
    · simp only [run_ci, h]
    · intro pyExec' runner' h'
      simp only [run_ci, h, h']
  · intro env1 e h1 h2
    constructor
    · simp only [run_ci, h1, h2]
    · intro runner'
      simp only [run_ci, h1, h2]
  · intro env1 pyExec' h1 h1' h2
    simp only [run_ci, h1, h1', h2]

def errUserDemo : PyError := ⟨"name \x27x\x27 is not defined", "NameError\n"⟩

def errTestDemo : PyError := ⟨"invalid literal", "ValueError\n"⟩

def execUserFails : String → Env → Except PyError Env := fun _ _ => .error errUserDemo

def execTestFails : String → Env → Except PyError Env :=
  fun code env => if code = "tests" then .error errTestDemo else .ok env

def runnerDemo : List PyValue → SuiteResult := fun cs => ⟨"log", cs.length, 0, 0⟩

theorem run_ci_hard_stop_sequence_witness :
    run_ci execUserFails runnerDemo "user" "tests" =
      "Error in user code execution: " ++ errUserDemo.msg ∧
    run_ci execTestFails runnerDemo "user" "tests" =
      "Error in test code execution: " ++ errTestDemo.msg ∧
    run_ci execOkDemo runnerDemo "user" "tests" =
      run_ci execOkDemo runnerDemo "user" "tests" := by
  refine ⟨?_, ?_, ?_⟩
  · exact ((run_ci_hard_stop_sequence execUserFails runnerDemo "user" "tests").1
      errUserDemo rfl).1
  · exact ((run_ci_hard_stop_sequence execTestFails runnerDemo "user" "tests").2.1
      [] errTestDemo rfl rfl).1
  · exact (run_ci_hard_stop_sequence execOkDemo runnerDemo "user" "tests").2.2
      [] execOkDemo rfl rfl rfl

/- ===================== Claim C6 ===================== -/

/-- Claim C6: when both executions complete and the resulting shared
namespace holds no value that is a test-case-capable class, run_ci returns
exactly the literal string "No test cases found to run.". -/
theorem run_ci_no_tests_literal
    (pyExec : String → Env → Except PyError Env) (runner : List PyValue → SuiteResult)
    (user_code test_code : String) (env1 env2 : Env)
    (h1 : pyExec user_code [] = .ok env1)
    (h2 : pyExec test_code env1 = .ok env2)
    (h3 : ∀ v ∈ env2.map Prod.snd, is_test_case v = false) :
    discover_tests env2 = [] ∧
    run_ci pyExec runner user_code test_code = "No test cases found to run." := by
  have hd : discover_tests env2 = [] := by
    rw [discover_tests, List.filter_eq_nil_iff]
    intro v hv
    simp [h3 v hv]
  refine ⟨hd, ?_⟩
  simp only [run_ci, h1, h2, hd, List.isEmpty_nil, if_true]

def noTestEnvExec : String → Env → Except PyError Env :=
  fun _ env => .ok (("square", PyValue.nonClass) :: env)

theorem run_ci_no_tests_literal_witness :
    discover_tests [("square", PyValue.nonClass), ("square", PyValue.nonClass)] = [] ∧
    run_ci noTestEnvExec runnerDemo "user" "tests" = "No test cases found to run." :=
  run_ci_no_tests_literal noTestEnvExec runnerDemo "user" "tests"
    [("square", PyValue.nonClass)] [("square", PyValue.nonClass), ("square", PyValue.nonClass)]
    rfl rfl (by decide)

/- ===================== Claim C10 ===================== -/

/-- Claim C10: run_ci's discovery covers every binding of the final shared
namespace whose value is a unittest.TestCase subclass, regardless of which
execution step created it — in particular a test-case class bound by the
user source and still bound after the test source ran is discovered, and
the suite that runs is built from the full discovered list containing it,
exactly as for synthesized classes. -/
theorem run_ci_discovers_user_defined_tests
    (pyExec : String → Env → Except PyError Env) (runner : List PyValue → SuiteResult)
    (user_code test_code : String) (env1 env2 : Env) (n : String) (v : PyValue)
    (h1 : pyExec user_code [] = .ok env1)
    (h2 : pyExec test_code env1 = .ok env2)
    (_hu : (n, v) ∈ env1)
    (hkeep : (n, v) ∈ env2)
    (ht : is_test_case v = true) :
    v ∈ discover_tests env2 ∧
    run_ci pyExec runner user_code test_code =
      (runner (discover_tests env2)).output ++ ci_summary (runner (discover_tests env2)) := by
  have hm : v ∈ discover_tests env2 := by
    rw [discover_tests]
    exact List.mem_filter.mpr ⟨List.mem_map.mpr ⟨(n, v), hkeep, rfl⟩, ht⟩
  have hne : discover_tests env2 ≠ [] := List.ne_nil_of_mem hm
  have hie : (discover_tests env2).isEmpty = false := by
    cases hl : discover_tests env2 with
    | nil => exact absurd hl hne
    | cons a l => rfl
  refine ⟨hm, ?_⟩
  simp only [run_ci, h1, h2, hie, Bool.false_eq_true, if_false]

def tcVal : PyValue := .classVal "Test_square" true

def userTestEnv : Env := [("Test_square", tcVal)]

def execUserBinds : String → Env → Except PyError Env :=
  fun _ env => .ok (if env.isEmpty then userTestEnv else env)

theorem run_ci_discovers_user_defined_tests_witness :
    tcVal ∈ discover_tests userTestEnv ∧
    run_ci execUserBinds runnerDemo "user" "tests" =
      (runnerDemo (discover_tests userTestEnv)).output ++
        ci_summary (runnerDemo (discover_tests userTestEnv)) :=
  run_ci_discovers_user_defined_tests execUserBinds runnerDemo "user" "tests"
    userTestEnv userTestEnv "Test_square" tcVal rfl rfl
    (by decide) (by decide) rfl

/- ===================== Claim C7 ===================== -/

def errMsgDemo : PyStr := "unexpected indent".data

def codeDemo2 : PyStr := "print(1)".data

/-- Service whose reply holds no occurrence of "fix" in any case but does
carry surrounding whitespace. -/
def verbatimService : PyStr → PyStr := fun _ => " use a colon ".data

/-- Claim C7 counterexample: when the reply contains no fix-related keyword
the source still strips leading and trailing whitespace, so the reply
" use a colon " is returned as "use a colon", not verbatim. -/
theorem suggest_fix_not_verbatim_cex :
    py_contains fixKw (py_lower (" use a colon ".data)) = false ∧
    suggest_bug_fix verbatimService errMsgDemo codeDemo2 = "use a colon".data ∧
    suggest_bug_fix verbatimService errMsgDemo codeDemo2 ≠ " use a colon ".data := by
  refine ⟨by decide, by decide, by decide⟩

/-- Claim C7 amended: the returned suggestion is always stripped of leading
and trailing whitespace.  If the lower-cased reply does not contain "fix",
the stripped full reply is returned; if it contains "fix" only in a
different letter case, the split finds no case-sensitive occurrence and the
stripped full reply is returned; and if the reply contains "fix"
case-sensitively, the returned suggestion is the stripped portion of the
reply following the last occurrence of "fix". -/
theorem suggest_fix_postprocessing
    (service : PyStr → PyStr) (error_message code reply : PyStr)
    (hreply : service (build_fix_prompt error_message code) = reply) :
    (py_contains fixKw (py_lower reply) = false →
       suggest_bug_fix service error_message code = py_strip reply) ∧
    (py_contains fixKw (py_lower reply) = true → py_contains fixKw reply = false →
       suggest_bug_fix service error_message code = py_strip reply) ∧
    (py_contains fixKw reply = true →
       (∃ pre, reply = pre ++ fixKw ++ py_split_last fixKw reply) ∧
       py_contains fixKw (py_split_last fixKw reply) = false ∧
       suggest_bug_fix service error_message code =
         py_strip (py_split_last fixKw reply)) := by
  refine ⟨?_, ?_, ?_⟩
  · intro h
    simp only [suggest_bug_fix, hreply, h, Bool.false_eq_true, if_false]
  · intro h1 h2
    simp only [suggest_bug_fix, hreply, h1, if_true]
    rw [py_split_last_of_not_contains fixKw reply h2]
  · intro h
    have hlow : py_contains fixKw (py_lower reply) = true := by
      have hmap := py_contains_lower fixKw reply h
      rwa [show py_lower fixKw = fixKw by decide] at hmap
    obtain ⟨hex, hno⟩ := py_split_last_spec fixKw reply (by decide) h
    refine ⟨hex, hno, ?_⟩
    simp only [suggest_bug_fix, hreply, hlow, if_true]

/-- Service whose reply contains a case-sensitive occurrence of "fix". -/
def fixService : PyStr → PyStr := fun _ => "a fix: add a colon ".data

def replyDemo : PyStr := "a fix: add a colon ".data

theorem suggest_fix_postprocessing_witness :
    (∃ pre, replyDemo = pre ++ fixKw ++ py_split_last fixKw replyDemo) ∧
    py_contains fixKw (py_split_last fixKw replyDemo) = false ∧
    suggest_bug_fix fixService errMsgDemo codeDemo2 =
      py_strip (py_split_last fixKw replyDemo) :=
  (suggest_fix_postprocessing fixService errMsgDemo codeDemo2 replyDemo rfl).2.2 (by decide)
